import Mathlib

/-!
Shallow embedding of the two orchestration scripts of the
ComaRecoveryLab/Network-based_Autopsy repository
(`registerYeoAtlas.py` and `runProbtrackx2GPU.py`) and proofs about the
properties stated in the specification.

Both scripts are glue code: they parse CLI arguments, build shell command
strings and hand them to the shell.  The embedding models

  * the command strings exactly as the Python `%`/`+` formatting builds them,
  * every shell hand-off (`subprocess.Popen`, `subprocess.call`, `os.system`)
    as an `Invocation` record appended to a trace,
  * every filesystem write performed by the Python code itself
    (`os.mkdir`, `os.makedirs`, `open(...,'w')`) as an `FsEffect`,
  * filesystem queries (`os.path.exists`, `os.listdir`, `readlines`) as
    explicit parameters carrying what the real calls would return.

Line numbers in the doc comments refer to the Python sources.
-/

namespace NetworkAutopsy

/-! ## Python string and path primitives -/

/-- Python `str.endswith(t)` on `s`. -/
def strEndsWith (s t : String) : Bool := t.data.isSuffixOf s.data

/-- Python `str.startswith(t)` on `s`. -/
def strStartsWith (s t : String) : Bool := t.data.isPrefixOf s.data

/-- Python `os.path.join(a, b)` (posix, two components): an absolute second
component replaces the first; otherwise the separator `/` is inserted unless
the first component is empty or already ends with `/`. -/
def os_path_join (a b : String) : String :=
  if strStartsWith b "/" then b
  else if a == "" || strEndsWith a "/" then a ++ b
  else a ++ "/" ++ b

/-- Everything up to the first space of a shell command: the program word. -/
def firstWord (s : String) : String := ⟨s.data.takeWhile (fun c => c != ' ')⟩

/-- The part of a path after its last `/`. -/
def basename (s : String) : String := ⟨(s.data.reverse.takeWhile (fun c => c != '/')).reverse⟩

/-! ## The argparse model

Only the behaviour the scripts rely on: a flag token (matched against the
short or the long spelling) either consumes the following token as a string
value or, for `action='store_true'`, records `True`; unknown tokens and a
missing value are parse errors; after scanning, parsing fails unless every
`required=True` argument was supplied. -/

inductive ArgValue
  | str (s : String)
  | flag (b : Bool)
deriving DecidableEq

structure ArgSpec where
  short : String
  long : String
  required : Bool
  storeTrue : Bool
deriving DecidableEq

def findSpec (specs : List ArgSpec) (tok : String) : Option ArgSpec :=
  specs.find? (fun a => a.short == tok || a.long == tok)

def parseTokens (specs : List ArgSpec) :
    List String → List (String × ArgValue) → Option (List (String × ArgValue))
  | [], acc => some acc
  | tok :: rest, acc =>
    match findSpec specs tok with
    | none => none
    | some a =>
      if a.storeTrue then
        parseTokens specs rest ((a.long, ArgValue.flag true) :: acc)
      else
        match rest with
        | [] => none
        | v :: rest2 => parseTokens specs rest2 ((a.long, ArgValue.str v) :: acc)

def lookupArg (acc : List (String × ArgValue)) (k : String) : Option ArgValue :=
  (acc.find? (fun p => p.1 == k)).map Prod.snd

def parse_args_with (specs : List ArgSpec) (argv : List String) :
    Option (List (String × ArgValue)) :=
  match parseTokens specs argv [] with
  | none => none
  | some acc =>
      if specs.all (fun a => !a.required || (lookupArg acc a.long).isSome) then some acc
      else none

def getStr (acc : List (String × ArgValue)) (k : String) : Option String :=
  match lookupArg acc k with
  | some (ArgValue.str s) => some s
  | _ => none

def getFlag (acc : List (String × ArgValue)) (k : String) : Bool :=
  match lookupArg acc k with
  | some (ArgValue.flag b) => b
  | _ => false

/-! ## Shell hand-offs and filesystem effects -/

/-- Where the child's stdout goes. -/
inductive OutMode
  | console
  | devnull
  | inherited
deriving DecidableEq

/-- One hand-off of a command string to the shell. -/
structure Invocation where
  cmd : String
  blocking : Bool
  stdout : OutMode
  stderr_merged : Bool
deriving DecidableEq

/-- A filesystem change performed directly by the Python code. -/
inductive FsEffect
  | mkdir (path : String)
  | writeFile (path : String) (content : String)
deriving DecidableEq

/-- `callSub` (registerYeoAtlas.py lines 27-36).  The command is handed to the
shell TWICE: first through `subprocess.Popen` with `shell=True`,
`stdout=PIPE`, `stderr=STDOUT`, whose output lines are printed to the console
(the `with` block waits for the child); then the same command again through
`subprocess.call` with `stdout=DEVNULL`, `stderr=STDOUT`, also blocking. -/
def callSub (run_command : String) : List Invocation :=
  [ ⟨run_command, true, OutMode.console, true⟩,
    ⟨run_command, true, OutMode.devnull, true⟩ ]

/-- Python `os.system` (used by runProbtrackx2GPU.py lines 104 and 118): one
blocking shell invocation; the child inherits both streams, nothing is
redirected. -/
def os_system (command : String) : List Invocation :=
  [ ⟨command, true, OutMode.inherited, false⟩ ]

/-- Python `os.mkdir`: fails (`FileExistsError`) when the path exists,
otherwise records the new directory.  The state is the list of existing
paths. -/
def os_mkdir (fs : List String) (d : String) : Option (List String) :=
  if fs.contains d then none else some (d :: fs)

/-- Python `os.makedirs` without `exist_ok`: fails when the target exists,
otherwise creates it (intermediate directories are not tracked: the model
keeps the target-path granularity the claims are about). -/
def os_makedirs (fs : List String) (d : String) : Option (List String) :=
  if fs.contains d then none else some (d :: fs)

/-! ## registerYeoAtlas.py -/

def registerYeo_specs : List ArgSpec :=
  [ ⟨"-s", "--subject_directory", true, false⟩,
    ⟨"-f", "--fs_average", true, false⟩,
    ⟨"-a", "--atlas_directory", true, false⟩,
    ⟨"-l", "--lut", true, false⟩ ]

/-- `parse_args` of registerYeoAtlas.py (lines 17-24): the function constructs
an `ArgumentParser` and registers the four required arguments
(`registerYeo_specs`), but it never calls `parser.parse_args()` and has no
`return` statement.  Like every Python function that falls off its end it
returns `None`; the constructed parser is discarded unused. -/
def registerYeo_parse_args (_argv : List String) : Option (List (String × ArgValue)) :=
  none

/-- `main` line 82-83 reads `args.subject_directory` from the value
`parse_args()` returned; on `None` the attribute access raises
`AttributeError`, modeled as `none`. -/
def registerYeo_main_args (argv : List String) : Option String :=
  match registerYeo_parse_args argv with
  | none => none
  | some acc => getStr acc "--subject_directory"

/-- Annotation file path built in `surfReg` (line 47). -/
def annotFile (CBIG_CODE_DIR FSA hemi : String) : String :=
  os_path_join CBIG_CODE_DIR
    ("stable_projects/brain_parcellation/Schaefer2018_LocalGlobal/Parcellations/FreeSurfer5.3/"
      ++ FSA ++ "/label/" ++ hemi ++ ".Schaefer2018_1000Parcels_7Networks_order.annot")

/-- Target annotation path built in `surfReg` (line 50). -/
def targVal (subject_dir hemi : String) : String :=
  os_path_join subject_dir
    ("label/" ++ hemi ++ ".Schaefer2018_1000Parcels_7Networks_order.annot")

/-- `mri_surf2surf` command string (line 53). -/
def surfCmd (hemi FSA subject annot targ : String) : String :=
  "mri_surf2surf --hemi " ++ hemi ++ " --srcsubject " ++ FSA ++ " --trgsubject " ++
    subject ++ " --sval-annot " ++ annot ++ " --tval " ++ targ

/-- `mri_aparc2aseg` command string (line 62). -/
def parc2segCmd (subject subject_directory : String) : String :=
  "mri_aparc2aseg --s " ++ subject ++ " --o " ++ subject_directory ++ "/mri/" ++ subject ++
    "_Schaefer2018_1000Parcels_7Networks.mgz --annot Schaefer2018_1000Parcels_7Networks_order"

/-- `mri_annotation2label` command string (line 75). -/
def annot2labelCmd (subject hemi output_directory : String) : String :=
  "mri_annotation2label --subject " ++ subject ++ " --hemi " ++ hemi ++
    " --annotation Schaefer2018_1000Parcels_7Networks_order --outdir " ++ output_directory ++
    " --ctab " ++ output_directory ++ "/Schaefer2018_" ++ hemi ++ "_LUT.txt"

/-- The LUT-placement command string built in `main` (line 108): the format
string is the literal text `os.symlink(%s, os.path.join(%s,Schaefer2018_...`
-- a fragment of Python source -- and the result is handed to `callSub`, i.e.
to the shell, at line 110. -/
def symlinkCmd (f_LUT subDir : String) : String :=
  "os.symlink(" ++ f_LUT ++ ", os.path.join(" ++ subDir ++
    ",Schaefer2018_1000Parcels_7Networks_order_LUT.txt"

/-- Shell trace of `surfReg` (lines 38-55): one `callSub` per hemisphere. -/
def surfReg_trace (CBIG_CODE_DIR FSA subject subject_dir : String) : List Invocation :=
  (["lh", "rh"].map (fun hemi =>
    callSub (surfCmd hemi FSA subject (annotFile CBIG_CODE_DIR FSA hemi)
      (targVal subject_dir hemi)))).flatten

/-- Shell trace of `annot2label` (lines 67-78): one `callSub` per hemisphere. -/
def annot2label_trace (subject output_directory : String) : List Invocation :=
  (["lh", "rh"].map (fun hemi =>
    callSub (annot2labelCmd subject hemi output_directory))).flatten

/-- Directory setup of `main` (lines 100-102): `os.makedirs(outDir)` guarded
by `not os.path.exists(outDir)`. -/
def registerYeo_dir_setup (fs : List String) (outDir : String) : Option (List String) :=
  if !(fs.contains outDir) then os_makedirs fs outDir else some fs

/-- Filesystem effects the Python code of registerYeoAtlas.py performs for one
subject: only the guarded `os.makedirs` of lines 100-102. -/
def registerYeo_subject_fs (outDir_exists : Bool) (outDir : String) : List FsEffect :=
  if outDir_exists then [] else [FsEffect.mkdir outDir]

/-- Shell trace of one iteration of the subject loop of `main`
(lines 92-116): LUT placement, surface registration, parc2seg, annot2label,
all routed through `callSub`. -/
def registerYeo_subject_trace (SUBJECTS_DIR CBIG_CODE_DIR FSA f_LUT subj : String) :
    List Invocation :=
  let subDir := os_path_join SUBJECTS_DIR subj
  let outDir := os_path_join subDir "Schaefer2018_labels"
  callSub (symlinkCmd f_LUT subDir) ++
    surfReg_trace CBIG_CODE_DIR FSA subj subDir ++
    callSub (parc2segCmd subj subDir) ++
    annot2label_trace subj outDir

/-- The subject-loop filter of `main` (lines 89-92): every entry of
`os.listdir(SUBJECTS_DIR)` is processed unless it is the exact name
`fsaverage6`. -/
def registerYeo_processed_subjects (listing : List String) : List String :=
  listing.filter (fun subj => subj != "fsaverage6")

/-! ## runProbtrackx2GPU.py -/

def probtrackx_specs : List ArgSpec :=
  [ ⟨"-i", "--input_directory", true, false⟩,
    ⟨"-s", "--subject", true, false⟩,
    ⟨"-o", "--output_directory", true, false⟩,
    ⟨"-b", "--bedpost_directory", true, false⟩,
    ⟨"-n", "--network", false, false⟩,
    ⟨"-g", "--no_geometry_fix", false, true⟩,
    ⟨"-c", "--cpu", false, true⟩ ]

/-- The namespace object `parse_args` of runProbtrackx2GPU.py returns
(lines 26-50). -/
structure ProbtrackxArgs where
  input_directory : String
  subject : String
  output_directory : String
  bedpost_directory : String
  network : Option String
  no_geometry_fix : Bool
  cpu : Bool
deriving DecidableEq

/-- `parse_args` of runProbtrackx2GPU.py: builds the parser with
`probtrackx_specs` and returns `parser.parse_args()`; `store_true` flags
default to `False`, the optional `--network` to `None`. -/
def probtrackx_parse_args (argv : List String) : Option ProbtrackxArgs :=
  (parse_args_with probtrackx_specs argv).bind fun acc =>
    match getStr acc "--input_directory", getStr acc "--subject",
          getStr acc "--output_directory", getStr acc "--bedpost_directory" with
    | some i, some s, some o, some b =>
        some ⟨i, s, o, b, getStr acc "--network",
              getFlag acc "--no_geometry_fix", getFlag acc "--cpu"⟩
    | _, _, _, _ => none

inductive Device
  | cuda
  | cpu
deriving DecidableEq

/-- `set_device` (lines 52-66).  When `torch.cuda.is_available()` the branch
sets the CUDA environment variables (not tracked here), `device = cuda` and
`cuda = True`.  Otherwise only `device` is assigned, and the final
`return(device, cuda)` reads the local `cuda` that was never assigned in this
branch, raising `UnboundLocalError`; the exception is modeled as `none`. -/
def set_device (cuda_available : Bool) : Option (Device × Bool) :=
  if cuda_available then some (Device.cuda, true)
  else none

/-- Device selection in `main` (lines 147-163): `use_gpu` is `False` exactly
when `--cpu` was passed; with `use_gpu` the pair comes from `set_device()`,
otherwise it is `(cpu, False)`. -/
def main_device_config (cpu_flag cuda_available : Bool) : Option (Device × Bool) :=
  let use_gpu := if cpu_flag then false else true
  if use_gpu then set_device cuda_available else some (Device.cpu, false)

/-- Result of `get_roi_list` together with its filesystem effect. -/
structure RoiListResult where
  rois : List String
  network_file : String
  effects : List FsEffect
deriving DecidableEq

/-- `get_roi_list` (lines 68-85).  `listing` is what `os.listdir(roi_path)`
returns.  The comprehension joins every entry with `roi_path` and the loop
keeps the joined items ending in `.nii`; the list is then written, one item
per line, to `roi_path/<subject>_network_<date>.txt`, which is returned. -/
def get_roi_list (roi_path : String) (listing : List String) (subject date : String) :
    RoiListResult :=
  let rois := (listing.map (fun file => os_path_join roi_path file)).filter
    (fun item => strEndsWith item ".nii")
  let network_file_name := subject ++ "_network_" ++ date ++ ".txt"
  let network_file := os_path_join roi_path network_file_name
  let content := String.join (rois.map (fun item => item ++ "\n"))
  ⟨rois, network_file, [FsEffect.writeFile network_file content]⟩

/-- `set_geometry` (lines 87-104).  `mask_exists` and `network_file_exists`
carry the two `os.path.exists` answers; `network_lines` is what
`readlines()` returns for the network file (each line keeps its trailing
newline).  When both paths exist, one `os.system` call
`fslcpgeom <mask> <line>` is issued per line; otherwise nothing happens. -/
def set_geometry (bedpost_directory : String)
    (mask_exists network_file_exists : Bool) (network_lines : List String) :
    List Invocation :=
  let mask := os_path_join bedpost_directory "nodif_brain_mask.nii.gz"
  if mask_exists && network_file_exists then
    (network_lines.map (fun line => os_system ("fslcpgeom " ++ mask ++ " " ++ line))).flatten
  else []

/-- The geometry branch of `main` (lines 198-202): with `--no_geometry_fix`
nothing runs, otherwise `set_geometry` does. -/
def main_geometry_step (skip_geometry : Bool) (bedpost_directory : String)
    (mask_exists network_file_exists : Bool) (network_lines : List String) :
    List Invocation :=
  if skip_geometry then []
  else set_geometry bedpost_directory mask_exists network_file_exists network_lines

def probtrackx_gpu_path : String := "/usr/pubsw/packages/fsl/6.0.5.1/bin/probtrackx2_gpu"

def probtrackx_cpu_path : String := "/usr/pubsw/packages/fsl/6.0.5.1/bin/probtrackx2"

/-- `build_probtrackx_command` (lines 106-118): selects the binary path from
`cuda`, concatenates the command string and hands it to `os.system` once; the
`device` argument is not used by the function body.  Returns the command
string together with the shell trace. -/
def build_probtrackx_command (output_directory bedpost_directory network_matrix : String)
    (cuda : Bool) (_device : Device) : String × List Invocation :=
  let probtrackx_version := if cuda == true then probtrackx_gpu_path else probtrackx_cpu_path
  let probtrackxCommand := probtrackx_version ++ " -x " ++ network_matrix ++ " -s " ++
    os_path_join bedpost_directory "merged" ++ " -m " ++
    os_path_join bedpost_directory "nodif_brain_mask" ++ " --dir=" ++ output_directory ++
    " -l -c 0.2 -S 2000 -P 5000 --fibthresh=0.01 --distthresh=0.0 --sampvox=0.0 --steplength=0.25 --forcedir --opd --network -V 1"
  (probtrackxCommand, os_system probtrackxCommand)

/-- Output-directory setup of `main` (lines 179-185): `isExist =
os.path.exists(output_directory)`; `os.mkdir` runs only when it is false. -/
def probtrackx_dir_setup (fs : List String) (output_directory : String) :
    Option (List String) :=
  let isExist := fs.contains output_directory
  if !isExist then os_mkdir fs output_directory else some fs

/-- All filesystem effects the Python code of runProbtrackx2GPU.py's `main`
performs itself: the guarded `os.mkdir` of the output directory plus, when no
`--network` list was supplied, the network-file write of `get_roi_list`. -/
def probtrackx_main_fs_effects (out_dir_exists : Bool) (output_directory : String)
    (network_arg : Option String) (input_directory : String) (listing : List String)
    (subject date : String) : List FsEffect :=
  (if out_dir_exists then [] else [FsEffect.mkdir output_directory]) ++
    (match network_arg with
     | some _ => []
     | none => (get_roi_list input_directory listing subject date).effects)

/-- The six external binaries the specification names. -/
def knownBinaries : List String :=
  ["mri_surf2surf", "mri_aparc2aseg", "mri_annotation2label", "fslcpgeom",
   "probtrackx2", "probtrackx2_gpu"]

/-- A command string invokes one of the six binaries when the basename of its
program word (the text before the first space) is one of them. -/
def invokesKnownBinary (cmd : String) : Bool :=
  knownBinaries.contains (basename (firstWord cmd))

/-! ## Helper lemmas -/

lemma flatten_map_singleton {α β : Type} (f : α → β) (l : List α) :
    (l.map (fun a => [f a])).flatten = l.map f := by
  induction l with
  | nil => rfl
  | cons a l ih => simp [ih]

lemma suffix_append_sep (s v : List Char) (hmem : '/' ∉ s) (w : List Char) :
    s <:+ (w ++ '/' :: v) ↔ s <:+ v := by
  induction w with
  | nil =>
      rw [List.nil_append, List.suffix_cons_iff]
      constructor
      · rintro (rfl | hs)
        · exact absurd (List.mem_cons_self _ _) hmem
        · exact hs
      · exact Or.inr
  | cons a w ih =>
      rw [List.cons_append, List.suffix_cons_iff]
      constructor
      · rintro (rfl | hs)
        · exact absurd (by simp) hmem
        · exact ih.mp hs
      · intro hs
        exact Or.inr (ih.mpr hs)

lemma strEndsWith_append_sep (a f : String) (hsep : strEndsWith a "/" = true) :
    strEndsWith (a ++ f) ".nii" = strEndsWith f ".nii" := by
  have hmem : '/' ∉ ".nii".data := by decide
  obtain ⟨w, hw⟩ := List.isSuffixOf_iff_suffix.mp hsep
  rw [Bool.eq_iff_iff]
  simp only [strEndsWith, List.isSuffixOf_iff_suffix, String.data_append]
  rw [← hw, List.append_assoc, List.singleton_append]
  exact suffix_append_sep _ _ hmem w

/-- Joining a path onto a directory never changes whether the result ends in
`.nii`: the inserted `/` separator cannot occur inside the suffix `.nii`. -/
lemma strEndsWith_join_nii (a f : String) :
    strEndsWith (os_path_join a f) ".nii" = strEndsWith f ".nii" := by
  unfold os_path_join
  cases h1 : strStartsWith f "/" with
  | true => simp
  | false =>
      simp only [Bool.false_eq_true, if_false]
      cases h2 : ((a == "") || strEndsWith a "/") with
      | true =>
          simp only [if_true]
          rcases Bool.or_eq_true_iff.mp h2 with h3 | h3
          · rw [beq_iff_eq.mp h3]
            rfl
          · exact strEndsWith_append_sep a f h3
      | false =>
          simp only [Bool.false_eq_true, if_false]
          exact strEndsWith_append_sep (a ++ "/") f (by
            simp [strEndsWith, String.data_append, List.isSuffixOf_iff_suffix])

/-! ## Claims -/

/-- Claim C1.  The claim asserts that both scripts' `parse_args` return a
parsed-arguments object carrying every supplied flag.  This holds for
runProbtrackx2GPU.py (conjuncts 2-4: all required flags give an object with
every value readable, a missing required flag rejects the invocation), but it
fails for registerYeoAtlas.py: its `parse_args` never calls
`parser.parse_args()` and has no return statement, so it returns `None` for
every argv -- in particular for an invocation supplying all four required
flags -- and `main` cannot read `subject_directory` from it (conjuncts 1 and
5). -/
theorem C1_parse_args (argv : List String) :
    registerYeo_parse_args argv = none ∧
    probtrackx_parse_args ["-i", "/rois", "-s", "sub-01", "-o", "/out", "-b", "/bedpost"]
      = some ⟨"/rois", "sub-01", "/out", "/bedpost", none, false, false⟩ ∧
    probtrackx_parse_args ["-i", "/rois", "-s", "sub-01", "-o", "/out"] = none ∧
    probtrackx_parse_args ["--input_directory", "/rois", "-s", "sub-01", "-o", "/out",
        "-b", "/bedpost", "--cpu", "-g", "-n", "/net.txt"]
      = some ⟨"/rois", "sub-01", "/out", "/bedpost", some "/net.txt", true, true⟩ ∧
    registerYeo_main_args ["-s", "/subjects", "-f", "fsaverage6", "-a", "/cbig", "-l", "/lut.txt"]
      = none :=
  ⟨rfl, by decide, by decide, by decide, rfl⟩

/-- Claim C2.  The claim asserts every command string handed to the shell
invokes one of the six external binaries, in particular the LUT-placement
string built in registerYeoAtlas.py's `main`.  The LUT-placement string is in
fact the literal Python fragment `os.symlink(...` handed to `callSub`
(conjuncts 1-2 evaluate it at a concrete subject): it invokes none of the six
binaries.  All the other command strings of both scripts do invoke one of the
six (remaining conjuncts). -/
theorem C2_shell_commands :
    invokesKnownBinary (symlinkCmd "/lut.txt" "/subjects/sub-01") = false ∧
    strStartsWith (symlinkCmd "/lut.txt" "/subjects/sub-01") "os.symlink(" = true ∧
    invokesKnownBinary (surfCmd "lh" "fsaverage6" "sub-01"
      (annotFile "/cbig" "fsaverage6" "lh") (targVal "/subjects/sub-01" "lh")) = true ∧
    invokesKnownBinary (parc2segCmd "sub-01" "/subjects/sub-01") = true ∧
    invokesKnownBinary (annot2labelCmd "sub-01" "lh" "/subjects/sub-01/Schaefer2018_labels")
      = true ∧
    ((set_geometry "/bedpost" true true ["/rois/a.nii\n"]).map Invocation.cmd).all
      invokesKnownBinary = true ∧
    invokesKnownBinary (build_probtrackx_command "/out" "/bedpost" "/rois/net.txt" true
      Device.cuda).1 = true ∧
    invokesKnownBinary (build_probtrackx_command "/out" "/bedpost" "/rois/net.txt" false
      Device.cpu).1 = true := by
  decide

/-- Claim C3.  The claim asserts `set_device` returns a well-defined
`(device, cuda)` pair in every case, including the no-GPU case.  With a CUDA
device the claimed behaviour holds (GPU binary, `cuda = True`), and with
`--cpu` the CPU binary and `cuda = False` are used; but in the case where
`--cpu` is absent and no CUDA device is available, `set_device`'s else branch
never assigns the local `cuda`, so `return(device, cuda)` raises
`UnboundLocalError` (modeled as `none`) instead of returning a pair. -/
theorem C3_set_device :
    set_device false = none ∧
    set_device true = some (Device.cuda, true) ∧
    main_device_config true false = some (Device.cpu, false) ∧
    main_device_config true true = some (Device.cpu, false) ∧
    main_device_config false true = some (Device.cuda, true) ∧
    main_device_config false false = none ∧
    strStartsWith (build_probtrackx_command "/out" "/bp" "/net.txt" false Device.cpu).1
      probtrackx_cpu_path = true ∧
    strStartsWith (build_probtrackx_command "/out" "/bp" "/net.txt" true Device.cuda).1
      probtrackx_gpu_path = true := by
  decide

/-- Claim C4, counterexample.  The claim asserts a given command string is
never invoked a second time; but `callSub` hands its command to the shell
twice (once via `Popen`, once more via `subprocess.call`), here evaluated at
the concrete `mri_aparc2aseg` command of subject `sub-01`. -/
theorem C4_counterexample :
    (callSub (parc2segCmd "sub-01" "/subjects/sub-01")).map Invocation.cmd
      = [parc2segCmd "sub-01" "/subjects/sub-01", parc2segCmd "sub-01" "/subjects/sub-01"] ∧
    2 ≤ (callSub (parc2segCmd "sub-01" "/subjects/sub-01")).length :=
  ⟨rfl, by decide⟩

/-- Claim C4, amended.  Every command routed through registerYeoAtlas.py's
`callSub` is handed to the shell twice -- first blocking with stdout piped to
the console and stderr merged into stdout, then again blocking with stdout
discarded and stderr merged -- while every command run through `os.system` in
runProbtrackx2GPU.py is handed to the shell exactly once, blocking, with both
streams inherited by the console; in both scripts the trace is a function of
the command string alone, so no validation, retry or recovery depends on the
child's exit status. -/
theorem C4_amended (c : String) :
    (callSub c).map Invocation.cmd = [c, c] ∧
    (os_system c).map Invocation.cmd = [c] ∧
    ((callSub c).all fun i => i.blocking) = true ∧
    ((os_system c).all fun i => i.blocking) = true ∧
    ((callSub c).all fun i => i.stderr_merged) = true ∧
    (callSub c).map Invocation.stdout = [OutMode.console, OutMode.devnull] ∧
    (os_system c).map Invocation.stdout = [OutMode.inherited] :=
  ⟨rfl, rfl, rfl, rfl, rfl, rfl, rfl⟩

/-- Claim C5, counterexample.  The claim asserts the Python code itself
creates no files or directories.  But at a concrete run the Python code
itself writes the ROI network text file (`get_roi_list`, first conjunct),
contributes a nonempty filesystem-effect trace in runProbtrackx2GPU.py's
`main` (second conjunct), and creates the `Schaefer2018_labels` directory in
registerYeoAtlas.py (third conjunct). -/
theorem C5_counterexample :
    (get_roi_list "/rois" ["a.nii", "b.nii.gz"] "sub-01" "20230207").effects
      = [FsEffect.writeFile "/rois/sub-01_network_20230207.txt" "/rois/a.nii\n"] ∧
    probtrackx_main_fs_effects false "/out/sub-01.probtrackx.network.20230207" none "/rois"
      ["a.nii"] "sub-01" "20230207" ≠ [] ∧
    registerYeo_dir_setup [] "/subjects/sub-01/Schaefer2018_labels"
      = some ["/subjects/sub-01/Schaefer2018_labels"] := by
  decide

/-- Claim C5, amended.  The Python code's own filesystem effects are exactly:
creating the output directory when it is absent (in both scripts) and, in
runProbtrackx2GPU.py when no `--network` list is supplied, writing the ROI
network text file; every other artifact comes from the wrapped external
binaries. -/
theorem C5_amended :
    (∀ (out_dir_exists : Bool) (output_directory : String) (network_arg : Option String)
        (input_directory : String) (listing : List String) (subject date : String)
        (e : FsEffect),
      e ∈ probtrackx_main_fs_effects out_dir_exists output_directory network_arg
            input_directory listing subject date →
      e = FsEffect.mkdir output_directory ∨
        ∃ content, e = FsEffect.writeFile
          (get_roi_list input_directory listing subject date).network_file content) ∧
    (∀ (outDir_exists : Bool) (outDir : String) (e : FsEffect),
      e ∈ registerYeo_subject_fs outDir_exists outDir → e = FsEffect.mkdir outDir) := by
  constructor
  · intro ode od na id li s d e he
    rcases List.mem_append.mp he with h | h
    · left
      cases ode with
      | true => cases h
      | false => simpa using h
    · right
      cases na with
      | some n => cases h
      | none =>
          refine ⟨String.join ((get_roi_list id li s d).rois.map (fun item => item ++ "\n")), ?_⟩
          simpa [get_roi_list] using h
  · intro ode od e he
    cases ode with
    | true => cases he
    | false => simpa [registerYeo_subject_fs] using he

/-- Witness for C5_amended at a concrete input: the single effect of a run
with an absent output directory and a user-supplied network list is the
`mkdir` of the output directory. -/
theorem C5_amended_witness :
    FsEffect.mkdir "/out" = FsEffect.mkdir "/out" ∨
      ∃ content, FsEffect.mkdir "/out" = FsEffect.writeFile
        (get_roi_list "/rois" [] "sub-01" "20230207").network_file content :=
  C5_amended.1 false "/out" (some "/net.txt") "/rois" [] "sub-01" "20230207"
    (FsEffect.mkdir "/out") (by decide)

/-- Claim C6.  `get_roi_list` returns exactly the directory entries whose
names end in `.nii`, each joined with the input directory (entries with any
other suffix, `.nii.gz` included, fail the `.endswith(".nii")` test and are
excluded), returns the network-file path `roi_path/<subject>_network_<date>.txt`,
and writes exactly the returned list, one path per line, to that file. -/
theorem C6_get_roi_list (roi_path : String) (listing : List String) (subject date : String) :
    (get_roi_list roi_path listing subject date).rois
      = (listing.filter (fun file => strEndsWith file ".nii")).map
          (fun file => os_path_join roi_path file) ∧
    (get_roi_list roi_path listing subject date).network_file
      = os_path_join roi_path (subject ++ "_network_" ++ date ++ ".txt") ∧
    (get_roi_list roi_path listing subject date).effects
      = [FsEffect.writeFile (get_roi_list roi_path listing subject date).network_file
          (String.join ((get_roi_list roi_path listing subject date).rois.map
            (fun item => item ++ "\n")))] := by
  refine ⟨?_, rfl, rfl⟩
  show ((listing.map fun file => os_path_join roi_path file).filter
      fun item => strEndsWith item ".nii") = _
  have hpred : ((fun item => strEndsWith item ".nii") ∘ fun file => os_path_join roi_path file)
      = fun file => strEndsWith file ".nii" :=
    funext fun file => strEndsWith_join_nii roi_path file
  rw [List.filter_map, hpred]

/-- Claim C7.  The geometry fix is skippable and conditional: with
`--no_geometry_fix` no `fslcpgeom` command runs at all (conjunct 1); without
it, if either the diffusion mask or the network file does not exist,
`set_geometry` executes nothing (conjuncts 2-3); and when both exist exactly
one `fslcpgeom <mask> <line>` invocation is issued per line of the network
file (conjunct 4). -/
theorem C7_geometry_fix (bedpost_directory : String)
    (mask_exists network_file_exists : Bool) (network_lines : List String) :
    main_geometry_step true bedpost_directory mask_exists network_file_exists network_lines
      = [] ∧
    set_geometry bedpost_directory false network_file_exists network_lines = [] ∧
    set_geometry bedpost_directory mask_exists false network_lines = [] ∧
    main_geometry_step false bedpost_directory true true network_lines
      = network_lines.map (fun line => Invocation.mk
          ("fslcpgeom " ++ os_path_join bedpost_directory "nodif_brain_mask.nii.gz"
            ++ " " ++ line) true OutMode.inherited false) := by
  refine ⟨rfl, rfl, ?_, ?_⟩
  · cases mask_exists <;> rfl
  · unfold main_geometry_step set_geometry os_system
    rw [if_neg Bool.false_ne_true, if_pos (show (true && true) = true from rfl)]
    exact flatten_map_singleton _ _

/-- Claim C8.  Directory creation in both scripts is idempotent: for every
filesystem state and target directory the setup step succeeds (no error is
raised), afterwards the directory exists, and running the step again succeeds
and leaves the state unchanged; in particular on a state where the directory
already exists both steps return the state as it was (last two conjuncts),
even though the underlying unguarded `os.makedirs`/`os.mkdir` would fail
there (final two conjuncts show the guard is what prevents the error). -/
theorem C8_dir_setup_idempotent (fs : List String) (d : String) :
    (∃ fs2, registerYeo_dir_setup fs d = some fs2 ∧ fs2.contains d = true ∧
        registerYeo_dir_setup fs2 d = some fs2) ∧
    (∃ fs2, probtrackx_dir_setup fs d = some fs2 ∧ fs2.contains d = true ∧
        probtrackx_dir_setup fs2 d = some fs2) ∧
    registerYeo_dir_setup (d :: fs) d = some (d :: fs) ∧
    probtrackx_dir_setup (d :: fs) d = some (d :: fs) ∧
    os_makedirs (d :: fs) d = none ∧
    os_mkdir (d :: fs) d = none := by
  have hcons : (d :: fs).contains d = true := by simp [List.contains_cons]
  have hsetup : ∀ gs : List String, gs.contains d = true →
      registerYeo_dir_setup gs d = some gs ∧ probtrackx_dir_setup gs d = some gs := by
    intro gs hgs
    constructor
    · unfold registerYeo_dir_setup
      rw [hgs]
      rfl
    · unfold probtrackx_dir_setup
      rw [hgs]
      rfl
  refine ⟨?_, ?_, (hsetup _ hcons).1, (hsetup _ hcons).2, ?_, ?_⟩
  · cases hc : fs.contains d with
    | true =>
        exact ⟨fs, (hsetup fs hc).1, hc, (hsetup fs hc).1⟩
    | false =>
        refine ⟨d :: fs, ?_, hcons, (hsetup _ hcons).1⟩
        unfold registerYeo_dir_setup os_makedirs
        rw [hc]
        rfl
  · cases hc : fs.contains d with
    | true =>
        exact ⟨fs, (hsetup fs hc).2, hc, (hsetup fs hc).2⟩
    | false =>
        refine ⟨d :: fs, ?_, hcons, (hsetup _ hcons).2⟩
        unfold probtrackx_dir_setup os_mkdir
        rw [hc]
        rfl
  · unfold os_makedirs
    rw [hcons]
    rfl
  · unfold os_mkdir
    rw [hcons]
    rfl

/-- Claim C9.  For all inputs, `build_probtrackx_command` produces the command
string consisting of the selected binary path (GPU when `cuda`, CPU
otherwise), ` -x ` and the network matrix, ` -s ` and `<bedpost>/merged`,
` -m ` and `<bedpost>/nodif_brain_mask`, `--dir=` and the output directory,
followed by the fixed flags. -/
theorem C9_probtrackx_command (output_directory bedpost_directory network_matrix : String)
    (cuda : Bool) (device : Device) :
    (build_probtrackx_command output_directory bedpost_directory network_matrix cuda device).1
      = (if cuda then probtrackx_gpu_path else probtrackx_cpu_path) ++ " -x " ++
        network_matrix ++ " -s " ++ os_path_join bedpost_directory "merged" ++ " -m " ++
        os_path_join bedpost_directory "nodif_brain_mask" ++ " --dir=" ++ output_directory ++
        " -l -c 0.2 -S 2000 -P 5000 --fibthresh=0.01 --distthresh=0.0 --sampvox=0.0 --steplength=0.25 --forcedir --opd --network -V 1" := by
  cases cuda <;> rfl

/-- Claim C10.  The subject loop of registerYeoAtlas.py's `main` processes a
directory entry exactly when its name is not the literal `fsaverage6`; in
particular `fsaverage` and arbitrary non-subject names pass the filter, as the
concrete listing in the second conjunct shows. -/
theorem C10_subject_filtering (listing : List String) (subj : String) :
    (subj ∈ registerYeo_processed_subjects listing ↔ subj ∈ listing ∧ subj ≠ "fsaverage6") ∧
    registerYeo_processed_subjects ["fsaverage", "sub-01", "fsaverage6", "notes.txt"]
      = ["fsaverage", "sub-01", "notes.txt"] := by
  constructor
  · simp [registerYeo_processed_subjects, List.mem_filter]
  · decide

end NetworkAutopsy
